import Mathlib

/-!
Shallow embedding of `src/lib.rs` of the `supervised-process` crate.

The crate is a single-file process supervisor: it spawns an external
process, periodically evaluates named health-check predicates against it
and, on a failing round, kills the process and either restarts it (while
the restart budget allows) or stops for good.

Modelling choices:
* Side effects (sleeps, hook invocations, kill and spawn attempts) are
  recorded in an explicit event trace.
* The OS is an `Env`: `spawn i` tells whether the i-th spawn attempt
  succeeds, `kill i` whether the kill issued at round i succeeds (the
  Rust code discards this result with `let _ = child.kill()`).
* Health-check predicates `FnMut(&mut Child) -> bool` are modelled as
  deterministic functions of the global round counter.
* Hook slots `Option<&dyn Fn(..)>` are modelled by a `Bool` saying
  whether a hook is registered; the `event!` macro fires the hook (i.e.
  emits a trace event) exactly when the slot is `Some`.
* The two non-terminating loops (`test_loop`, `run`) take fuel:
  `test_loop` gets a number of test rounds, `run` a number of spawn
  cycles; exhausted fuel yields `none` as result ("still running").
-/

namespace SupervisedProc

/-- `std::time::Duration`, measured in milliseconds. -/
abbrev Duration := Nat

/-- `Duration::from_secs`. -/
def Duration.from_secs (s : Nat) : Duration := s * 1000

/-- `Duration::from_millis`. -/
def Duration.from_millis (ms : Nat) : Duration := ms

/-- The private `enum Operation { Restart, NoRestart }` of `lib.rs`. -/
inductive Operation where
  | Restart
  | NoRestart
  deriving DecidableEq, Repr

/-- Observable events of one supervisor execution: hook invocations
(fired by the `event!` macro only when the hook slot is set) and the
effectful primitives (sleeps, kill attempts, spawn attempts). -/
inductive Event where
  | sleepCheck
  | testStart
  | testOk (name : String)
  | testError (name : String)
  | allTestsPassing
  | kill
  | sleepBackoff
  | restart
  | noRestart
  | spawn
  deriving DecidableEq, Repr

/-- The environment: outcomes the OS hands back.  `spawn i` is the
success of the i-th spawn attempt; `kill r` the success of the
`child.kill()` issued in round `r` (discarded by the code). -/
structure Env where
  spawn : Nat → Bool
  kill : Nat → Bool

/-- `struct SupervisedProcess` of `lib.rs`.  A health-check predicate
`Box<dyn FnMut(&mut Child) -> bool>` is a function of the global round
counter; a hook slot `Option<&dyn Fn(..)>` is a `Bool` saying whether
the hook is registered. -/
structure SupervisedProcess where
  process : String
  args : List String
  restart_times : Option Nat
  check_interval : Duration
  backoff_time : Duration
  tests : List (String × (Nat → Bool))
  on_test_start : Bool
  on_tests_passing : Bool
  on_test_ok : Bool
  on_test_error : Bool
  on_restart : Bool
  on_no_restart : Bool

/-- `impl Default for SupervisedProcess`. -/
def SupervisedProcess.default : SupervisedProcess where
  process := ""
  args := []
  restart_times := none
  check_interval := Duration.from_secs 30
  backoff_time := Duration.from_secs 30
  tests := []
  on_test_start := false
  on_tests_passing := false
  on_test_ok := false
  on_test_error := false
  on_restart := false
  on_no_restart := false

namespace SupervisedProcess

/-- `SupervisedProcess::new`. -/
def new (process : String) : SupervisedProcess :=
  { SupervisedProcess.default with process := process }

/-- `SupervisedProcess::with_check_interval`. -/
def with_check_interval (self : SupervisedProcess) (check_interval : Duration) :
    SupervisedProcess :=
  { self with check_interval := check_interval }

/-- `SupervisedProcess::with_backoff_time`. -/
def with_backoff_time (self : SupervisedProcess) (backoff_time : Duration) :
    SupervisedProcess :=
  { self with backoff_time := backoff_time }

/-- `SupervisedProcess::with_restart_times`. -/
def with_restart_times (self : SupervisedProcess) (restart_times : Nat) :
    SupervisedProcess :=
  { self with restart_times := some restart_times }

/-- `SupervisedProcess::with_args` (arguments already converted to strings). -/
def with_args (self : SupervisedProcess) (args : List String) : SupervisedProcess :=
  { self with args := args }

/-- `SupervisedProcess::add_test`. -/
def add_test (self : SupervisedProcess) (name : String) (test : Nat → Bool) :
    SupervisedProcess :=
  { self with tests := self.tests ++ [(name, test)] }

/-- `SupervisedProcess::should_restart`: returns the decision together
with the (possibly budget-decremented) updated `self`. -/
def should_restart (self : SupervisedProcess) : Bool × SupervisedProcess :=
  match self.restart_times with
  | none => (true, self)
  | some 0 => (false, self)
  | some (times + 1) => (true, { self with restart_times := some times })

/-- The Rust method `on_restart` (registers the hook; named `set_` here
because the field projection already carries the Rust name). -/
def set_on_restart (self : SupervisedProcess) : SupervisedProcess :=
  { self with on_restart := true }

/-- The Rust method `on_no_restart` (registers the hook). -/
def set_on_no_restart (self : SupervisedProcess) : SupervisedProcess :=
  { self with on_no_restart := true }

/-- The Rust method `on_test_start` (registers the hook). -/
def set_on_test_start (self : SupervisedProcess) : SupervisedProcess :=
  { self with on_test_start := true }

/-- The Rust method `on_tests_passing` (registers the hook). -/
def set_on_tests_passing (self : SupervisedProcess) : SupervisedProcess :=
  { self with on_tests_passing := true }

/-- The Rust method `on_test_ok` (registers the hook). -/
def set_on_test_ok (self : SupervisedProcess) : SupervisedProcess :=
  { self with on_test_ok := true }

/-- The Rust method `on_test_error` (registers the hook). -/
def set_on_test_error (self : SupervisedProcess) : SupervisedProcess :=
  { self with on_test_error := true }

end SupervisedProcess

/-- The `self.tests.iter_mut().all(|test| ...)` fold inside `test_loop`:
short-circuiting `all` over the registered tests at round `round`,
emitting `on_test_ok`/`on_test_error` events for evaluated predicates
(when the corresponding hook is registered).  Returns the emitted events
and the fold's boolean result. -/
def tests_all (onOk onErr : Bool) (round : Nat) :
    List (String × (Nat → Bool)) → List Event × Bool
  | [] => ([], true)
  | (name, t) :: rest =>
    if t round then
      ((if onOk then [Event.testOk name] else []) ++ (tests_all onOk onErr round rest).1,
        (tests_all onOk onErr round rest).2)
    else
      ((if onErr then [Event.testError name] else []), false)

/-- Events emitted at the top of each `test_loop` iteration:
`thread::sleep(self.check_interval)` then `event!(self.on_test_start)`. -/
def headEvs (p : SupervisedProcess) : List Event :=
  Event.sleepCheck :: (if p.on_test_start then [Event.testStart] else [])

/-- Result of (a fueled run of) `test_loop`: the emitted events, the
next global round counter, the updated `self`, and `none` when the fuel
ran out before the loop returned, otherwise the loop's
`Result<Operation, String>`. -/
structure LoopResult where
  events : List Event
  round : Nat
  state : SupervisedProcess
  result : Option (Except String Operation)

/-- `SupervisedProcess::test_loop`, fueled by a number of test rounds. -/
def test_loop (env : Env) : Nat → SupervisedProcess → Nat → LoopResult
  | 0, p, round => ⟨[], round, p, none⟩
  | fuel + 1, p, round =>
    let tr := tests_all p.on_test_ok p.on_test_error round p.tests
    if tr.2 then
      let rest := test_loop env fuel p (round + 1)
      ⟨headEvs p ++ tr.1 ++ (if p.on_tests_passing then [Event.allTestsPassing] else [])
        ++ rest.events, rest.round, rest.state, rest.result⟩
    else
      let _killResult := env.kill round
      match SupervisedProcess.should_restart p with
      | (true, p2) =>
        ⟨headEvs p ++ tr.1 ++ [Event.kill, Event.sleepBackoff]
          ++ (if p2.on_restart then [Event.restart] else []),
          round + 1, p2, some (Except.ok Operation.Restart)⟩
      | (false, p2) =>
        ⟨headEvs p ++ tr.1 ++ [Event.kill]
          ++ (if p2.on_no_restart then [Event.noRestart] else []),
          round + 1, p2, some (Except.ok Operation.NoRestart)⟩

/-- Result of (a fueled run of) `run`: emitted events, final `self`, and
`none` when the fuel ran out, otherwise `run`'s `Result<(), String>`. -/
structure RunResult where
  events : List Event
  state : SupervisedProcess
  result : Option (Except String Unit)

/-- `SupervisedProcess::run`, fueled: `innerFuel` test rounds per spawn
cycle, and a number of spawn cycles as the recursion fuel.  `spawnIdx`
counts spawn attempts, `round` is the global round counter. -/
def run (env : Env) (innerFuel : Nat) :
    Nat → SupervisedProcess → Nat → Nat → RunResult
  | 0, p, _spawnIdx, _round => ⟨[], p, none⟩
  | outerFuel + 1, p, spawnIdx, round =>
    if env.spawn spawnIdx then
      let lr := test_loop env innerFuel p round
      match lr.result with
      | some (Except.ok Operation.Restart) =>
        let rr := run env innerFuel outerFuel lr.state (spawnIdx + 1) lr.round
        ⟨Event.spawn :: lr.events ++ rr.events, rr.state, rr.result⟩
      | some (Except.ok Operation.NoRestart) =>
        ⟨Event.spawn :: lr.events, lr.state, some (Except.ok ())⟩
      | some (Except.error e) =>
        ⟨Event.spawn :: lr.events, lr.state, some (Except.error e)⟩
      | none => ⟨Event.spawn :: lr.events, lr.state, none⟩
    else
      ⟨[Event.spawn], p, some (Except.error "Failed to start process")⟩

/-- An environment in which every spawn and every kill succeeds. -/
def envOk : Env := ⟨fun _ => true, fun _ => true⟩

/-! ## Basic lemmas about `should_restart` -/

theorem should_restart_none (p : SupervisedProcess) (h : p.restart_times = none) :
    p.should_restart = (true, p) := by
  simp [SupervisedProcess.should_restart, h]

theorem should_restart_zero (p : SupervisedProcess) (h : p.restart_times = some 0) :
    p.should_restart = (false, p) := by
  simp [SupervisedProcess.should_restart, h]

theorem should_restart_succ (p : SupervisedProcess) (n : Nat)
    (h : p.restart_times = some (n + 1)) :
    p.should_restart = (true, { p with restart_times := some n }) := by
  simp [SupervisedProcess.should_restart, h]

/-! ## Basic lemmas about `tests_all` -/

theorem tests_all_shape (onOk onErr : Bool) (round : Nat) :
    ∀ tests : List (String × (Nat → Bool)), ∀ e ∈ (tests_all onOk onErr round tests).1,
      (∃ s, e = Event.testOk s) ∨ (∃ s, e = Event.testError s)
  | [] => by simp [tests_all]
  | (name, t) :: rest => by
    intro e he
    rw [tests_all] at he
    cases ht : t round with
    | true =>
      simp only [ht, if_true] at he
      rcases List.mem_append.mp he with h1 | h2
      · cases onOk with
        | true => exact Or.inl ⟨name, by simpa using h1⟩
        | false => simp at h1
      · exact tests_all_shape onOk onErr round rest e h2
    | false =>
      simp only [ht, if_false] at he
      cases onErr with
      | true => exact Or.inr ⟨name, by simpa using he⟩
      | false => simp at he

theorem count_tests_all (onOk onErr : Bool) (round : Nat)
    (tests : List (String × (Nat → Bool))) (e : Event)
    (hok : ∀ s, e ≠ Event.testOk s) (herr : ∀ s, e ≠ Event.testError s) :
    List.count e (tests_all onOk onErr round tests).1 = 0 := by
  rw [List.count_eq_zero]
  intro hmem
  rcases tests_all_shape onOk onErr round tests e hmem with ⟨s, rfl⟩ | ⟨s, rfl⟩
  · exact hok s rfl
  · exact herr s rfl

/-- If every registered test passes at this round, the fold yields `true`. -/
theorem tests_all_true (onOk onErr : Bool) (round : Nat) :
    ∀ tests : List (String × (Nat → Bool)), (∀ t ∈ tests, t.2 round = true) →
      (tests_all onOk onErr round tests).2 = true
  | [] => by simp [tests_all]
  | (name, t) :: rest => by
    intro h
    rw [tests_all]
    have ht : t round = true := h (name, t) (List.mem_cons_self _ _)
    simp only [ht, if_true]
    exact tests_all_true onOk onErr round rest (fun x hx => h x (List.mem_cons_of_mem _ hx))

/-- If some registered test fails at this round, the fold yields `false`. -/
theorem tests_all_false (onOk onErr : Bool) (round : Nat) :
    ∀ tests : List (String × (Nat → Bool)), ∀ nt ∈ tests, nt.2 round = false →
      (tests_all onOk onErr round tests).2 = false
  | [] => by simp
  | (name, t) :: rest => by
    intro nt hmem hf
    rw [tests_all]
    cases ht : t round with
    | false => simp [ht]
    | true =>
      simp only [ht, if_true]
      rcases List.mem_cons.mp hmem with rfl | h2
      · have hf' : t round = false := hf
        rw [ht] at hf'
        exact Bool.noConfusion hf'
      · exact tests_all_false onOk onErr round rest nt h2 hf

/-! ## Step lemmas for `test_loop` -/

theorem count_headEvs (p : SupervisedProcess) (e : Event) (h1 : e ≠ Event.sleepCheck)
    (h2 : e ≠ Event.testStart) : List.count e (headEvs p) = 0 := by
  cases hos : p.on_test_start <;>
    simp [headEvs, hos, List.count_cons, List.count_nil, beq_iff_eq, h1, h2]

theorem test_loop_pass_step (env : Env) (fuel : Nat) (p : SupervisedProcess) (round : Nat)
    (hpass : (tests_all p.on_test_ok p.on_test_error round p.tests).2 = true) :
    test_loop env (fuel + 1) p round =
      ⟨headEvs p ++ (tests_all p.on_test_ok p.on_test_error round p.tests).1
        ++ (if p.on_tests_passing then [Event.allTestsPassing] else [])
        ++ (test_loop env fuel p (round + 1)).events,
       (test_loop env fuel p (round + 1)).round,
       (test_loop env fuel p (round + 1)).state,
       (test_loop env fuel p (round + 1)).result⟩ := by
  rw [test_loop]
  simp [hpass]

theorem test_loop_fail_none (env : Env) (fuel : Nat) (p : SupervisedProcess) (round : Nat)
    (hfail : (tests_all p.on_test_ok p.on_test_error round p.tests).2 = false)
    (hb : p.restart_times = none) :
    test_loop env (fuel + 1) p round =
      ⟨headEvs p ++ (tests_all p.on_test_ok p.on_test_error round p.tests).1
        ++ [Event.kill, Event.sleepBackoff]
        ++ (if p.on_restart then [Event.restart] else []),
       round + 1, p, some (Except.ok Operation.Restart)⟩ := by
  rw [test_loop]
  simp [hfail, should_restart_none p hb]

theorem test_loop_fail_succ (env : Env) (fuel : Nat) (p : SupervisedProcess) (round n : Nat)
    (hfail : (tests_all p.on_test_ok p.on_test_error round p.tests).2 = false)
    (hb : p.restart_times = some (n + 1)) :
    test_loop env (fuel + 1) p round =
      ⟨headEvs p ++ (tests_all p.on_test_ok p.on_test_error round p.tests).1
        ++ [Event.kill, Event.sleepBackoff]
        ++ (if p.on_restart then [Event.restart] else []),
       round + 1, { p with restart_times := some n }, some (Except.ok Operation.Restart)⟩ := by
  rw [test_loop]
  simp [hfail, should_restart_succ p n hb]

theorem test_loop_fail_zero (env : Env) (fuel : Nat) (p : SupervisedProcess) (round : Nat)
    (hfail : (tests_all p.on_test_ok p.on_test_error round p.tests).2 = false)
    (hb : p.restart_times = some 0) :
    test_loop env (fuel + 1) p round =
      ⟨headEvs p ++ (tests_all p.on_test_ok p.on_test_error round p.tests).1
        ++ [Event.kill]
        ++ (if p.on_no_restart then [Event.noRestart] else []),
       round + 1, p, some (Except.ok Operation.NoRestart)⟩ := by
  rw [test_loop]
  simp [hfail, should_restart_zero p hb]

/-! ## Claims -/

/-- **C10**: `should_restart` on an unlimited budget (`None`) returns `true`
and leaves it `None`; on `Some(0)` returns `false` and leaves it `Some(0)`;
on `Some(n)` with `n > 0` returns `true` and decrements to `Some(n-1)`.  The
budget is never decremented below zero and an unlimited budget is never made
finite. -/
theorem claim_C10_should_restart (p : SupervisedProcess) :
    (p.restart_times = none → p.should_restart = (true, p)) ∧
    (p.restart_times = some 0 → p.should_restart = (false, p)) ∧
    (∀ n, p.restart_times = some (n + 1) →
      p.should_restart = (true, { p with restart_times := some n })) :=
  ⟨should_restart_none p, should_restart_zero p, fun n h => should_restart_succ p n h⟩

theorem claim_C10_witness :
    (SupervisedProcess.new "echo").should_restart = (true, SupervisedProcess.new "echo") ∧
    ((SupervisedProcess.new "echo").with_restart_times 0).should_restart
      = (false, (SupervisedProcess.new "echo").with_restart_times 0) ∧
    ((SupervisedProcess.new "echo").with_restart_times 3).should_restart
      = (true,
        { (SupervisedProcess.new "echo").with_restart_times 3 with restart_times := some 2 }) :=
  ⟨(claim_C10_should_restart _).1 rfl, (claim_C10_should_restart _).2.1 rfl,
    (claim_C10_should_restart _).2.2 2 rfl⟩

/-- **C2**: predicates are evaluated in registration order and evaluation
short-circuits at the first failing predicate: `on_test_ok` fires for each
passing predicate before it, `on_test_error` fires for the first failing one,
and predicates after the first failure are never consulted (the fold's result
is independent of them). -/
theorem claim_C2_short_circuit (round : Nat) (pre post post' : List (String × (Nat → Bool)))
    (fail : String × (Nat → Bool))
    (hpre : ∀ t ∈ pre, t.2 round = true) (hfail : fail.2 round = false) :
    tests_all true true round (pre ++ fail :: post)
      = (pre.map (fun t => Event.testOk t.1) ++ [Event.testError fail.1], false) ∧
    tests_all true true round (pre ++ fail :: post)
      = tests_all true true round (pre ++ fail :: post') := by
  obtain ⟨fname, ft⟩ := fail
  have hf : ft round = false := hfail
  have key : ∀ post'' : List (String × (Nat → Bool)),
      tests_all true true round (pre ++ (fname, ft) :: post'')
        = (pre.map (fun t => Event.testOk t.1) ++ [Event.testError fname], false) := by
    intro post''
    induction pre with
    | nil =>
      rw [List.nil_append, tests_all]
      simp [hf]
    | cons hd tl ih =>
      obtain ⟨hname, ht⟩ := hd
      have hth : ht round = true := hpre (hname, ht) (List.mem_cons_self _ _)
      rw [List.cons_append, tests_all]
      rw [ih (fun x hx => hpre x (List.mem_cons_of_mem _ hx))]
      simp [hth]
  exact ⟨key post, (key post).trans (key post').symm⟩

theorem claim_C2_witness :
    tests_all true true 0
        ([("A", fun _ => true)] ++ ("B", fun _ => false) :: [("C", fun _ => true)])
      = ([Event.testOk "A", Event.testError "B"], false) ∧
    tests_all true true 0
        ([("A", fun _ => true)] ++ ("B", fun _ => false) :: [("C", fun _ => true)])
      = tests_all true true 0
        ([("A", fun _ => true)] ++ ("B", fun _ => false) :: [("C", fun _ => false)]) := by
  have h := claim_C2_short_circuit 0 [("A", fun _ => true)] [("C", fun _ => true)]
    [("C", fun _ => false)] ("B", fun _ => false) (by simp) rfl
  simpa using h

/-- **C3**: in a failing round, when the budget permits a restart (unlimited
or strictly positive) the supervisor decrements a finite budget, sleeps for
`backoff_time`, fires `on_restart` and returns `Restart`; when the budget is
exactly `0` it fires `on_no_restart` and returns `NoRestart` with no backoff
sleep anywhere in that round. -/
theorem claim_C3_failing_round (env : Env) (fuel : Nat) (p : SupervisedProcess) (round : Nat)
    (hfail : (tests_all p.on_test_ok p.on_test_error round p.tests).2 = false) :
    (p.restart_times = none →
      test_loop env (fuel + 1) p round =
        ⟨headEvs p ++ (tests_all p.on_test_ok p.on_test_error round p.tests).1
          ++ [Event.kill, Event.sleepBackoff]
          ++ (if p.on_restart then [Event.restart] else []),
         round + 1, p, some (Except.ok Operation.Restart)⟩) ∧
    (∀ n, p.restart_times = some (n + 1) →
      test_loop env (fuel + 1) p round =
        ⟨headEvs p ++ (tests_all p.on_test_ok p.on_test_error round p.tests).1
          ++ [Event.kill, Event.sleepBackoff]
          ++ (if p.on_restart then [Event.restart] else []),
         round + 1, { p with restart_times := some n }, some (Except.ok Operation.Restart)⟩) ∧
    (p.restart_times = some 0 →
      test_loop env (fuel + 1) p round =
        ⟨headEvs p ++ (tests_all p.on_test_ok p.on_test_error round p.tests).1
          ++ [Event.kill]
          ++ (if p.on_no_restart then [Event.noRestart] else []),
         round + 1, p, some (Except.ok Operation.NoRestart)⟩ ∧
      List.count Event.sleepBackoff (test_loop env (fuel + 1) p round).events = 0) := by
  refine ⟨fun hb => test_loop_fail_none env fuel p round hfail hb,
    fun n hb => test_loop_fail_succ env fuel p round n hfail hb,
    fun hb => ⟨test_loop_fail_zero env fuel p round hfail hb, ?_⟩⟩
  rw [test_loop_fail_zero env fuel p round hfail hb]
  simp only [List.count_append]
  rw [count_headEvs p _ (by simp) (by simp),
    count_tests_all _ _ _ _ _ (by intro s h; cases h) (by intro s h; cases h)]
  cases hnr : p.on_no_restart <;> simp [List.count_cons, List.count_nil, beq_iff_eq]

/-- A demonstration configuration built through the fluent builders: one
always-failing test, all hooks registered, finite budget. -/
def demoProc (budget : Nat) : SupervisedProcess :=
  ((((((((((((SupervisedProcess.new "echo").with_args ["-n"]).add_test
    "always false" (fun _ => false)).with_check_interval
    (Duration.from_millis 1)).with_backoff_time
    (Duration.from_millis 1)).with_restart_times
    budget).set_on_test_start).set_on_tests_passing).set_on_test_ok).set_on_test_error).set_on_restart).set_on_no_restart)

theorem claim_C3_witness :
    test_loop envOk 1 (demoProc 0) 0 =
      ⟨[Event.sleepCheck, Event.testStart, Event.testError "always false", Event.kill,
        Event.noRestart], 1, demoProc 0, some (Except.ok Operation.NoRestart)⟩ ∧
    List.count Event.sleepBackoff (test_loop envOk 1 (demoProc 0) 0).events = 0 := by
  have h := (claim_C3_failing_round envOk 0 (demoProc 0) 0 rfl).2.2 rfl
  exact ⟨h.1.trans (by rfl), h.2⟩

/-! ## The environment is consulted only for spawn outcomes -/

/-- `test_loop` never reads the environment: the only interaction, the kill
result, is discarded (`let _ = child.kill()`). -/
theorem test_loop_env_indep (env env' : Env) :
    ∀ fuel p round, test_loop env fuel p round = test_loop env' fuel p round
  | 0, _, _ => rfl
  | fuel + 1, p, round => by
    rw [test_loop, test_loop, test_loop_env_indep env env' fuel p (round + 1)]

/-- `test_loop` never produces an `Err`: its only exits are `Ok(Restart)`,
`Ok(NoRestart)`, or running out of fuel. -/
theorem test_loop_no_error (env : Env) :
    ∀ fuel p round, (test_loop env fuel p round).result = none ∨
      ∃ op, (test_loop env fuel p round).result = some (Except.ok op)
  | 0, _, _ => Or.inl rfl
  | fuel + 1, p, round => by
    rw [test_loop]
    cases hcond : (tests_all p.on_test_ok p.on_test_error round p.tests).2 with
    | true =>
      simp only [hcond, if_true]
      simpa using test_loop_no_error env fuel p (round + 1)
    | false =>
      rcases hs : p.should_restart with ⟨b, p2⟩
      cases b <;> simp [hcond, hs]

/-- `run` output depends on the environment only through spawn outcomes. -/
theorem run_spawn_congr (innerFuel : Nat) (env env' : Env) (hsp : env.spawn = env'.spawn) :
    ∀ outerFuel p spawnIdx round,
      run env innerFuel outerFuel p spawnIdx round
        = run env' innerFuel outerFuel p spawnIdx round
  | 0, _, _, _ => rfl
  | outerFuel + 1, p, i, r => by
    rw [run, run, hsp, test_loop_env_indep env env' innerFuel p r]
    simp only [run_spawn_congr innerFuel env env' hsp outerFuel]

/-- When every spawn succeeds, `run` never returns an error. -/
theorem run_no_error_of_spawn_ok (env : Env) (innerFuel : Nat)
    (hsp : ∀ j, env.spawn j = true) :
    ∀ outerFuel p spawnIdx round e,
      (run env innerFuel outerFuel p spawnIdx round).result ≠ some (Except.error e)
  | 0, p, i, r, e => by rw [run]; simp
  | outerFuel + 1, p, i, r, e => by
    rw [run]
    simp only [hsp i, if_true]
    rcases hres : (test_loop env innerFuel p r).result with _ | val
    · simp [hres]
    · rcases val with s | op
      · rcases test_loop_no_error env innerFuel p r with h | ⟨op, h⟩ <;>
          rw [hres] at h <;> simp at h
      · cases op with
        | Restart =>
          simp only [hres]
          simpa using run_no_error_of_spawn_ok env innerFuel hsp outerFuel
            (test_loop env innerFuel p r).state (i + 1) (test_loop env innerFuel p r).round e
        | NoRestart => simp [hres]

/-- **C5**: the outcome of the kill issued on an unhealthy process is
ignored: traces and results of `test_loop` and `run` are identical for any
two kill environments, the loop proceeds to the restart decision regardless,
and no kill error is ever propagated (`test_loop`'s result is never an
`Err`). -/
theorem claim_C5_kill_ignored (spawnF kill1 kill2 : Nat → Bool) (innerFuel outerFuel : Nat)
    (p : SupervisedProcess) (spawnIdx round : Nat) :
    test_loop ⟨spawnF, kill1⟩ innerFuel p round = test_loop ⟨spawnF, kill2⟩ innerFuel p round ∧
    run ⟨spawnF, kill1⟩ innerFuel outerFuel p spawnIdx round
      = run ⟨spawnF, kill2⟩ innerFuel outerFuel p spawnIdx round ∧
    ∀ s, (test_loop ⟨spawnF, kill1⟩ innerFuel p round).result ≠ some (Except.error s) := by
  refine ⟨test_loop_env_indep _ _ innerFuel p round,
    run_spawn_congr innerFuel ⟨spawnF, kill1⟩ ⟨spawnF, kill2⟩ rfl outerFuel p spawnIdx round, ?_⟩
  intro s hs
  rcases test_loop_no_error ⟨spawnF, kill1⟩ innerFuel p round with h | ⟨op, h⟩ <;>
    rw [h] at hs <;> simp at hs

/-- **C4**: `run` returns a failure only when spawning fails (with every
spawn succeeding no error is ever returned), and a failing spawn is fatal and
immediate: the error is returned at once, with no retry of the launch and no
hook fired, regardless of the remaining restart budget. -/
theorem claim_C4_launch_failure (env : Env) (innerFuel outerFuel : Nat)
    (p : SupervisedProcess) (spawnIdx round : Nat) :
    ((∀ j, env.spawn j = true) →
      ∀ e, (run env innerFuel outerFuel p spawnIdx round).result ≠ some (Except.error e)) ∧
    (env.spawn spawnIdx = false →
      run env innerFuel (outerFuel + 1) p spawnIdx round
        = ⟨[Event.spawn], p, some (Except.error "Failed to start process")⟩) := by
  constructor
  · intro hsp e
    exact run_no_error_of_spawn_ok env innerFuel hsp outerFuel p spawnIdx round e
  · intro hsp
    rw [run]
    simp [hsp]

theorem claim_C4_witness :
    run ⟨fun _ => false, fun _ => true⟩ 1 1 (demoProc 5) 0 0
      = ⟨[Event.spawn], demoProc 5, some (Except.error "Failed to start process")⟩ ∧
    ∀ e, (run envOk 1 1 (demoProc 0) 0 0).result ≠ some (Except.error e) :=
  ⟨(claim_C4_launch_failure ⟨fun _ => false, fun _ => true⟩ 1 0 (demoProc 5) 0 0).2 rfl,
    fun e => (claim_C4_launch_failure envOk 1 1 (demoProc 0) 0 0).1 (fun _ => rfl) e⟩

/-! ## C1: budget exhaustion under an always-failing test -/

theorem run_budget_exhaustion (env : Env) (hsp : ∀ j, env.spawn j = true) (innerFuel : Nat) :
    ∀ n p spawnIdx round, p.restart_times = some n → p.on_restart = true →
      p.on_no_restart = true → ∀ t, t ∈ p.tests → (∀ r', t.2 r' = false) →
      (run env (innerFuel + 1) (n + 1) p spawnIdx round).result = some (Except.ok ()) ∧
      List.count Event.restart (run env (innerFuel + 1) (n + 1) p spawnIdx round).events = n ∧
      List.count Event.noRestart (run env (innerFuel + 1) (n + 1) p spawnIdx round).events = 1 ∧
      List.count Event.spawn (run env (innerFuel + 1) (n + 1) p spawnIdx round).events = n + 1
  | 0, p, i, r => by
    intro hb hr hnr t ht hf
    have hfailr := tests_all_false p.on_test_ok p.on_test_error r p.tests t ht (hf r)
    have a1 := count_headEvs p Event.restart (by decide) (by decide)
    have a2 := count_tests_all p.on_test_ok p.on_test_error r p.tests Event.restart
      (fun s h => by cases h) (fun s h => by cases h)
    have b1 := count_headEvs p Event.noRestart (by decide) (by decide)
    have b2 := count_tests_all p.on_test_ok p.on_test_error r p.tests Event.noRestart
      (fun s h => by cases h) (fun s h => by cases h)
    have c1 := count_headEvs p Event.spawn (by decide) (by decide)
    have c2 := count_tests_all p.on_test_ok p.on_test_error r p.tests Event.spawn
      (fun s h => by cases h) (fun s h => by cases h)
    rw [run, test_loop_fail_zero env innerFuel p r hfailr hb]
    simp [hsp i, hnr, List.count_append, List.count_cons, List.count_nil,
      a1, a2, b1, b2, c1, c2]
  | n + 1, p, i, r => by
    intro hb hr hnr t ht hf
    have hfailr := tests_all_false p.on_test_ok p.on_test_error r p.tests t ht (hf r)
    have ih := run_budget_exhaustion env hsp innerFuel n
      { p with restart_times := some n } (i + 1) (r + 1) rfl hr hnr t ht hf
    have a1 := count_headEvs p Event.restart (by decide) (by decide)
    have a2 := count_tests_all p.on_test_ok p.on_test_error r p.tests Event.restart
      (fun s h => by cases h) (fun s h => by cases h)
    have b1 := count_headEvs p Event.noRestart (by decide) (by decide)
    have b2 := count_tests_all p.on_test_ok p.on_test_error r p.tests Event.noRestart
      (fun s h => by cases h) (fun s h => by cases h)
    have c1 := count_headEvs p Event.spawn (by decide) (by decide)
    have c2 := count_tests_all p.on_test_ok p.on_test_error r p.tests Event.spawn
      (fun s h => by cases h) (fun s h => by cases h)
    simp only [hr] at ih
    rw [run, test_loop_fail_succ env innerFuel p r n hfailr hb]
    simp [hsp i, hr, List.count_append, List.count_cons, List.count_nil,
      a1, a2, b1, b2, c1, c2, ih.1, ih.2.1, ih.2.2.1, ih.2.2.2]

/-- **C1**: with restart budget `n` and a health check that always fails, the
process is spawned `n + 1` times (relaunched `n` times), `on_restart` fires
exactly `n` times, `on_no_restart` fires exactly once, and `run` returns
success (the `NoRestart` decision was reached). -/
theorem claim_C1_restart_budget (env : Env) (innerFuel n : Nat) (p : SupervisedProcess)
    (spawnIdx round : Nat) (hsp : ∀ j, env.spawn j = true)
    (hb : p.restart_times = some n) (hr : p.on_restart = true) (hnr : p.on_no_restart = true)
    (hfail : ∃ t ∈ p.tests, ∀ r', t.2 r' = false) :
    (run env (innerFuel + 1) (n + 1) p spawnIdx round).result = some (Except.ok ()) ∧
    List.count Event.restart (run env (innerFuel + 1) (n + 1) p spawnIdx round).events = n ∧
    List.count Event.noRestart (run env (innerFuel + 1) (n + 1) p spawnIdx round).events = 1 ∧
    List.count Event.spawn (run env (innerFuel + 1) (n + 1) p spawnIdx round).events = n + 1 := by
  obtain ⟨t, ht, hf⟩ := hfail
  exact run_budget_exhaustion env hsp innerFuel n p spawnIdx round hb hr hnr t ht hf

theorem claim_C1_witness :
    (run envOk 1 3 (demoProc 2) 0 0).result = some (Except.ok ()) ∧
    List.count Event.restart (run envOk 1 3 (demoProc 2) 0 0).events = 2 ∧
    List.count Event.noRestart (run envOk 1 3 (demoProc 2) 0 0).events = 1 ∧
    List.count Event.spawn (run envOk 1 3 (demoProc 2) 0 0).events = 3 :=
  claim_C1_restart_budget envOk 0 2 (demoProc 2) 0 0 (fun _ => rfl) rfl rfl rfl
    ⟨("always false", fun _ => false), List.mem_singleton.mpr rfl, fun _ => rfl⟩

/-! ## C6/C9: rounds in which every test passes -/

theorem test_loop_all_pass (env : Env) :
    ∀ fuel p round, (∀ t ∈ p.tests, ∀ r', t.2 r' = true) →
      (test_loop env fuel p round).result = none ∧
      (test_loop env fuel p round).state = p ∧
      List.count Event.allTestsPassing (test_loop env fuel p round).events
        = (if p.on_tests_passing then fuel else 0) ∧
      List.count Event.sleepCheck (test_loop env fuel p round).events = fuel ∧
      List.count Event.restart (test_loop env fuel p round).events = 0 ∧
      List.count Event.noRestart (test_loop env fuel p round).events = 0 ∧
      List.count Event.kill (test_loop env fuel p round).events = 0
  | 0, p, round => by
    intro h
    refine ⟨rfl, rfl, ?_, rfl, rfl, rfl, rfl⟩
    simp [test_loop]
  | fuel + 1, p, round => by
    intro h
    have hpass := tests_all_true p.on_test_ok p.on_test_error round p.tests
      (fun t ht => h t ht round)
    have ih := test_loop_all_pass env fuel p (round + 1) h
    have sc1 := count_tests_all p.on_test_ok p.on_test_error round p.tests Event.sleepCheck
      (fun s hx => by cases hx) (fun s hx => by cases hx)
    have sc2 := count_tests_all p.on_test_ok p.on_test_error round p.tests Event.allTestsPassing
      (fun s hx => by cases hx) (fun s hx => by cases hx)
    have sc3 := count_tests_all p.on_test_ok p.on_test_error round p.tests Event.restart
      (fun s hx => by cases hx) (fun s hx => by cases hx)
    have sc4 := count_tests_all p.on_test_ok p.on_test_error round p.tests Event.noRestart
      (fun s hx => by cases hx) (fun s hx => by cases hx)
    have sc5 := count_tests_all p.on_test_ok p.on_test_error round p.tests Event.kill
      (fun s hx => by cases hx) (fun s hx => by cases hx)
    have h1 := count_headEvs p Event.allTestsPassing (by decide) (by decide)
    have h2 := count_headEvs p Event.restart (by decide) (by decide)
    have h3 := count_headEvs p Event.noRestart (by decide) (by decide)
    have h4 := count_headEvs p Event.kill (by decide) (by decide)
    have h5 : List.count Event.sleepCheck (headEvs p) = 1 := by
      cases hos : p.on_test_start <;>
        simp [headEvs, hos, List.count_cons, List.count_nil, beq_iff_eq]
    rw [test_loop_pass_step env fuel p round hpass]
    cases hop : p.on_tests_passing <;>
      simp [hop, List.count_append, List.count_cons, List.count_nil,
        sc1, sc2, sc3, sc4, sc5, h1, h2, h3, h4, h5, ih.1, ih.2.1,
        ih.2.2.2.1, ih.2.2.2.2.1, ih.2.2.2.2.2.1, ih.2.2.2.2.2.2] <;>
      exact ⟨by simpa [hop] using ih.2.2.1, by omega⟩

/-- **C6**: while every registered predicate keeps passing, each elapsed
check interval fires `on_tests_passing` exactly once, the process is never
killed, the budget and the rest of the configuration are untouched,
`on_restart`/`on_no_restart` never fire, and the loop never returns a
decision. -/
theorem claim_C6_all_passing (env : Env) (fuel : Nat) (p : SupervisedProcess) (round : Nat)
    (hpass : ∀ t ∈ p.tests, ∀ r', t.2 r' = true) (hop : p.on_tests_passing = true) :
    (test_loop env fuel p round).result = none ∧
    (test_loop env fuel p round).state = p ∧
    List.count Event.allTestsPassing (test_loop env fuel p round).events = fuel ∧
    List.count Event.sleepCheck (test_loop env fuel p round).events = fuel ∧
    List.count Event.restart (test_loop env fuel p round).events = 0 ∧
    List.count Event.noRestart (test_loop env fuel p round).events = 0 ∧
    List.count Event.kill (test_loop env fuel p round).events = 0 := by
  obtain ⟨g1, g2, g3, g4, g5, g6, g7⟩ := test_loop_all_pass env fuel p round hpass
  rw [hop] at g3
  exact ⟨g1, g2, by simpa using g3, g4, g5, g6, g7⟩

/-- A configuration with a single always-passing test and the
`on_tests_passing` hook registered. -/
def demoPassProc : SupervisedProcess :=
  ((((SupervisedProcess.new "sleep").with_args
    ["0.1"]).add_test "always true" (fun _ => true)).set_on_tests_passing).set_on_test_ok

theorem claim_C6_witness :
    (test_loop envOk 2 demoPassProc 0).result = none ∧
    (test_loop envOk 2 demoPassProc 0).state = demoPassProc ∧
    List.count Event.allTestsPassing (test_loop envOk 2 demoPassProc 0).events = 2 ∧
    List.count Event.sleepCheck (test_loop envOk 2 demoPassProc 0).events = 2 ∧
    List.count Event.restart (test_loop envOk 2 demoPassProc 0).events = 0 ∧
    List.count Event.noRestart (test_loop envOk 2 demoPassProc 0).events = 0 ∧
    List.count Event.kill (test_loop envOk 2 demoPassProc 0).events = 0 := by
  refine claim_C6_all_passing envOk 2 demoPassProc 0 ?_ rfl
  intro t ht r'
  have h : t ∈ [(("always true" : String), (fun _ : Nat => true))] := ht
  simp at h
  rw [h]

/-- **C9**: with no registered tests every round counts as all-passing:
`on_tests_passing` fires each round (when registered), the process is never
killed, the budget is never consulted or decremented, the test loop never
returns a decision, and `run` never terminates (its result stays `none` for
any fuel) once the first spawn succeeded. -/
theorem claim_C9_no_tests (env : Env) (innerFuel outerFuel : Nat) (p : SupervisedProcess)
    (spawnIdx round : Nat) (htests : p.tests = []) (hspawn : env.spawn spawnIdx = true) :
    (test_loop env innerFuel p round).result = none ∧
    (test_loop env innerFuel p round).state = p ∧
    List.count Event.allTestsPassing (test_loop env innerFuel p round).events
      = (if p.on_tests_passing then innerFuel else 0) ∧
    List.count Event.kill (test_loop env innerFuel p round).events = 0 ∧
    List.count Event.restart (test_loop env innerFuel p round).events = 0 ∧
    List.count Event.noRestart (test_loop env innerFuel p round).events = 0 ∧
    (run env innerFuel outerFuel p spawnIdx round).result = none ∧
    (run env innerFuel outerFuel p spawnIdx round).state = p := by
  have hpass : ∀ t ∈ p.tests, ∀ r', t.2 r' = true := by
    intro t ht
    rw [htests] at ht
    cases ht
  obtain ⟨g1, g2, g3, g4, g5, g6, g7⟩ := test_loop_all_pass env innerFuel p round hpass
  refine ⟨g1, g2, g3, g7, g5, g6, ?_, ?_⟩ <;>
    (cases outerFuel with
     | zero => rfl
     | succ m =>
       rw [run]
       simp [hspawn, g1, g2])

theorem claim_C9_witness :
    (test_loop envOk 2 (SupervisedProcess.new "echo") 0).result = none ∧
    (test_loop envOk 2 (SupervisedProcess.new "echo") 0).state
      = SupervisedProcess.new "echo" ∧
    List.count Event.allTestsPassing (test_loop envOk 2 (SupervisedProcess.new "echo") 0).events
      = (if (SupervisedProcess.new "echo").on_tests_passing then 2 else 0) ∧
    List.count Event.kill (test_loop envOk 2 (SupervisedProcess.new "echo") 0).events = 0 ∧
    List.count Event.restart (test_loop envOk 2 (SupervisedProcess.new "echo") 0).events = 0 ∧
    List.count Event.noRestart (test_loop envOk 2 (SupervisedProcess.new "echo") 0).events = 0 ∧
    (run envOk 2 5 (SupervisedProcess.new "echo") 0 0).result = none ∧
    (run envOk 2 5 (SupervisedProcess.new "echo") 0 0).state
      = SupervisedProcess.new "echo" :=
  claim_C9_no_tests envOk 2 5 (SupervisedProcess.new "echo") 0 0 rfl rfl

/-! ## C7/C8: configuration frame and determinism -/

/-- Equality of every configuration field except the restart budget. -/
def same_config (p q : SupervisedProcess) : Prop :=
  p.process = q.process ∧ p.args = q.args ∧ p.check_interval = q.check_interval ∧
  p.backoff_time = q.backoff_time ∧ p.tests = q.tests ∧
  p.on_test_start = q.on_test_start ∧ p.on_tests_passing = q.on_tests_passing ∧
  p.on_test_ok = q.on_test_ok ∧ p.on_test_error = q.on_test_error ∧
  p.on_restart = q.on_restart ∧ p.on_no_restart = q.on_no_restart

theorem same_config_refl (p : SupervisedProcess) : same_config p p :=
  ⟨rfl, rfl, rfl, rfl, rfl, rfl, rfl, rfl, rfl, rfl, rfl⟩

theorem same_config_trans {p q s : SupervisedProcess} (h1 : same_config p q)
    (h2 : same_config q s) : same_config p s := by
  obtain ⟨a1, a2, a3, a4, a5, a6, a7, a8, a9, a10, a11⟩ := h1
  obtain ⟨b1, b2, b3, b4, b5, b6, b7, b8, b9, b10, b11⟩ := h2
  exact ⟨a1.trans b1, a2.trans b2, a3.trans b3, a4.trans b4, a5.trans b5, a6.trans b6,
    a7.trans b7, a8.trans b8, a9.trans b9, a10.trans b10, a11.trans b11⟩

theorem should_restart_same_config (p : SupervisedProcess) :
    same_config p p.should_restart.2 := by
  rcases hb : p.restart_times with _ | k
  · rw [should_restart_none p hb]
    exact same_config_refl p
  · rcases k with _ | m
    · rw [should_restart_zero p hb]
      exact same_config_refl p
    · rw [should_restart_succ p m hb]
      exact ⟨rfl, rfl, rfl, rfl, rfl, rfl, rfl, rfl, rfl, rfl, rfl⟩

theorem test_loop_same_config (env : Env) :
    ∀ fuel p round, same_config p (test_loop env fuel p round).state
  | 0, p, _ => same_config_refl p
  | fuel + 1, p, round => by
    cases hcond : (tests_all p.on_test_ok p.on_test_error round p.tests).2 with
    | true =>
      rw [test_loop_pass_step env fuel p round hcond]
      exact test_loop_same_config env fuel p (round + 1)
    | false =>
      rcases hb : p.restart_times with _ | k
      · rw [test_loop_fail_none env fuel p round hcond hb]
        exact same_config_refl p
      · rcases k with _ | m
        · rw [test_loop_fail_zero env fuel p round hcond hb]
          exact same_config_refl p
        · rw [test_loop_fail_succ env fuel p round m hcond hb]
          exact ⟨rfl, rfl, rfl, rfl, rfl, rfl, rfl, rfl, rfl, rfl, rfl⟩

theorem run_same_config (env : Env) (innerFuel : Nat) :
    ∀ outerFuel p spawnIdx round,
      same_config p (run env innerFuel outerFuel p spawnIdx round).state
  | 0, p, _, _ => same_config_refl p
  | outerFuel + 1, p, i, r => by
    rw [run]
    cases hsp : env.spawn i with
    | false =>
      simp only [hsp, Bool.false_eq_true, if_false]
      exact same_config_refl p
    | true =>
      simp only [hsp, if_true]
      rcases hres : (test_loop env innerFuel p r).result with _ | val
      · exact test_loop_same_config env innerFuel p r
      · rcases val with s | op
        · exact test_loop_same_config env innerFuel p r
        · cases op with
          | Restart =>
            exact same_config_trans (test_loop_same_config env innerFuel p r)
              (run_same_config env innerFuel outerFuel (test_loop env innerFuel p r).state
                (i + 1) (test_loop env innerFuel p r).round)
          | NoRestart =>
            exact test_loop_same_config env innerFuel p r

/-- **C7**: each builder method returns a configuration in which only the
field it names differs, and during execution `run` mutates no configuration
field other than the restart budget. -/
theorem claim_C7_builder_frame (p : SupervisedProcess) (d d' : Duration) (n : Nat)
    (as : List String) (nm : String) (t : Nat → Bool) (env : Env)
    (innerFuel outerFuel spawnIdx round : Nat) :
    p.with_check_interval d = { p with check_interval := d } ∧
    p.with_backoff_time d' = { p with backoff_time := d' } ∧
    p.with_restart_times n = { p with restart_times := some n } ∧
    p.with_args as = { p with args := as } ∧
    p.add_test nm t = { p with tests := p.tests ++ [(nm, t)] } ∧
    p.set_on_restart = { p with on_restart := true } ∧
    p.set_on_no_restart = { p with on_no_restart := true } ∧
    p.set_on_test_start = { p with on_test_start := true } ∧
    p.set_on_tests_passing = { p with on_tests_passing := true } ∧
    p.set_on_test_ok = { p with on_test_ok := true } ∧
    p.set_on_test_error = { p with on_test_error := true } ∧
    same_config p (run env innerFuel outerFuel p spawnIdx round).state :=
  ⟨rfl, rfl, rfl, rfl, rfl, rfl, rfl, rfl, rfl, rfl, rfl,
    run_same_config env innerFuel outerFuel p spawnIdx round⟩

theorem config_ext (p q : SupervisedProcess) (h : same_config p q)
    (hb : p.restart_times = q.restart_times) : p = q := by
  obtain ⟨h1, h2, h3, h4, h5, h6, h7, h8, h9, h10, h11⟩ := h
  cases p
  cases q
  simp only [SupervisedProcess.mk.injEq]
  exact ⟨h1, h2, hb, h3, h4, h5, h6, h7, h8, h9, h10, h11⟩

/-- **C8**: `run` is a deterministic function of the configuration and the
environment: two independently built instances whose configurations agree
field by field produce identical event traces, identical final states and
identical terminal results. -/
theorem claim_C8_deterministic (env : Env) (innerFuel outerFuel spawnIdx round : Nat)
    (p q : SupervisedProcess) (hcfg : same_config p q)
    (hb : p.restart_times = q.restart_times) :
    run env innerFuel outerFuel p spawnIdx round
      = run env innerFuel outerFuel q spawnIdx round := by
  rw [config_ext p q hcfg hb]

theorem claim_C8_witness :
    run envOk 1 2 (demoProc 1) 0 0 = run envOk 1 2 (demoProc 1) 0 0 :=
  claim_C8_deterministic envOk 1 2 0 0 (demoProc 1) (demoProc 1) (same_config_refl _) rfl

end SupervisedProc
